import Mathlib

set_option maxHeartbeats 1000000

/-!
Verification of the RTMP message-payload bridge, the abort message codec and
the client session state machine of the rust-media-libs RTMP core, against the
repository sources (src/rtmp/src/messages/message_payload.rs,
src/rtmp/src/messages/types/abort.rs, src/rtmp/src/sessions/client/tests.rs)
and, where the implementation is not part of the provided sources, against the
specification.
-/

/-- A byte of the wire format (Rust u8). -/
abbrev Byte := Fin 256

/-- A 32-bit unsigned machine integer (Rust u32). -/
abbrev U32 := Fin 4294967296

/-- An IEEE-754 double (Rust f64), modelled by an abstract 64-bit token.
The code under verification performs no arithmetic on these values: it only
serializes them bytewise, compares them for equality, embeds small integers
into them and truncates them back to u32, so the model identifies a double
with a 64-bit token and embeds the integer n as the token n. -/
abbrev F64 := Fin 18446744073709551616

/-- A 32-bit float (Rust f32), modelled by an abstract 32-bit token in the
same way as F64. -/
abbrev F32 := Fin 4294967296

def byteOf (n : Nat) : Byte := ⟨n % 256, Nat.mod_lt _ (by decide)⟩

/-- Rust strings are byte vectors; ASCII string literals are embedded
bytewise. -/
def str (s : String) : List Byte := s.toList.map (fun c => byteOf c.toNat)

/-- Embedding of a natural number as an f64 token (the value an integer
literal denotes when cast to f64 in the source). -/
def f64OfNat (n : Nat) : F64 := ⟨n % 18446744073709551616, Nat.mod_lt _ (by decide)⟩

/-- Embedding of a u32 as an f64 token (the `x as f64` cast of the source). -/
def f64OfU32 (n : U32) : F64 := ⟨n.val, Nat.lt_trans n.isLt (by decide)⟩

/-- Truncation of an f64 token back to u32 (the `x as u32` cast of the
source). -/
def f64AsU32 (x : F64) : U32 := ⟨x.val % 4294967296, Nat.mod_lt _ (by decide)⟩

/-- Conversion of an f64 token to an f32 token (the `x as f32` cast of the
source). -/
def f64AsF32 (x : F64) : F32 := ⟨x.val % 4294967296, Nat.mod_lt _ (by decide)⟩

/-- Embedding of a u32 as an f32 token. -/
def f32OfU32 (n : U32) : F32 := n

theorem f64AsU32_f64OfU32 (n : U32) : f64AsU32 (f64OfU32 n) = n := by
  apply Fin.ext
  simp [f64AsU32, f64OfU32, Nat.mod_eq_of_lt n.isLt]

theorem f64AsF32_f64OfU32 (n : U32) : f64AsF32 (f64OfU32 n) = f32OfU32 n := by
  apply Fin.ext
  simp [f64AsF32, f64OfU32, f32OfU32, Nat.mod_eq_of_lt n.isLt]

/-! Big-endian byte encodings of machine integers (the byteorder crate's
`BigEndian` read/write operations). -/

def be16 (n : Nat) : List Byte := [byteOf (n / 256), byteOf n]

def be32 (n : Nat) : List Byte :=
  [byteOf (n / 16777216), byteOf (n / 65536), byteOf (n / 256), byteOf n]

def be64 (n : Nat) : List Byte :=
  [byteOf (n / 72057594037927936), byteOf (n / 281474976710656),
   byteOf (n / 1099511627776), byteOf (n / 4294967296),
   byteOf (n / 16777216), byteOf (n / 65536), byteOf (n / 256), byteOf n]

def rd16 (b0 b1 : Byte) : Nat := b0.val * 256 + b1.val

def rd32 (b0 b1 b2 b3 : Byte) : Nat :=
  b0.val * 16777216 + b1.val * 65536 + b2.val * 256 + b3.val

def rd64 (b0 b1 b2 b3 b4 b5 b6 b7 : Byte) : Nat :=
  b0.val * 72057594037927936 + b1.val * 281474976710656 +
  b2.val * 1099511627776 + b3.val * 4294967296 +
  b4.val * 16777216 + b5.val * 65536 + b6.val * 256 + b7.val

theorem rd32_lt (b0 b1 b2 b3 : Byte) : rd32 b0 b1 b2 b3 < 4294967296 := by
  have h0 := b0.isLt
  have h1 := b1.isLt
  have h2 := b2.isLt
  have h3 := b3.isLt
  unfold rd32
  omega

theorem rd64_lt (b0 b1 b2 b3 b4 b5 b6 b7 : Byte) :
    rd64 b0 b1 b2 b3 b4 b5 b6 b7 < 18446744073709551616 := by
  have h0 := b0.isLt
  have h1 := b1.isLt
  have h2 := b2.isLt
  have h3 := b3.isLt
  have h4 := b4.isLt
  have h5 := b5.isLt
  have h6 := b6.isLt
  have h7 := b7.isLt
  unfold rd64
  omega

def mk32 (b0 b1 b2 b3 : Byte) : U32 := ⟨rd32 b0 b1 b2 b3, rd32_lt b0 b1 b2 b3⟩

def mk64 (b0 b1 b2 b3 b4 b5 b6 b7 : Byte) : F64 :=
  ⟨rd64 b0 b1 b2 b3 b4 b5 b6 b7, rd64_lt b0 b1 b2 b3 b4 b5 b6 b7⟩

theorem rd16_be16 (n : Nat) (h : n < 65536) :
    rd16 (byteOf (n / 256)) (byteOf n) = n := by
  simp only [rd16, byteOf]
  omega

theorem rd32_be32 (n : Nat) (h : n < 4294967296) :
    rd32 (byteOf (n / 16777216)) (byteOf (n / 65536)) (byteOf (n / 256)) (byteOf n) = n := by
  simp only [rd32, byteOf]
  omega

theorem rd64_be64 (n : Nat) (h : n < 18446744073709551616) :
    rd64 (byteOf (n / 72057594037927936)) (byteOf (n / 281474976710656))
      (byteOf (n / 1099511627776)) (byteOf (n / 4294967296))
      (byteOf (n / 16777216)) (byteOf (n / 65536)) (byteOf (n / 256)) (byteOf n) = n := by
  simp only [rd64, byteOf]
  omega

theorem mk32_be32 (n : U32) :
    mk32 (byteOf (n.val / 16777216)) (byteOf (n.val / 65536))
      (byteOf (n.val / 256)) (byteOf n.val) = n := by
  apply Fin.ext
  simp [mk32, rd32_be32 n.val n.isLt]

theorem mk64_be64 (n : F64) :
    mk64 (byteOf (n.val / 72057594037927936)) (byteOf (n.val / 281474976710656))
      (byteOf (n.val / 1099511627776)) (byteOf (n.val / 4294967296))
      (byteOf (n.val / 16777216)) (byteOf (n.val / 65536))
      (byteOf (n.val / 256)) (byteOf n.val) = n := by
  apply Fin.ext
  simp [mk64, rd64_be64 n.val n.isLt]

theorem take_len_append {α : Type} (l r : List α) : (l ++ r).take l.length = l := by
  induction l with
  | nil => simp
  | cons a t ih => simp [ih]

theorem drop_len_append {α : Type} (l r : List α) : (l ++ r).drop l.length = r := by
  induction l with
  | nil => simp
  | cons a t ih => simp [ih]

/-! The AMF0 value tree and its byte codec. The spec treats AMF0 value
encoding as a provided external codec (encode(values) to bytes, decode(bytes)
to values); the modelled codec below follows the AMF0 marker scheme named in
the spec (Number 0x00, Boolean 0x01, Utf8String 0x02, Object 0x03, Null 0x05,
EcmaArray 0x08, StrictArray 0x0A). -/

/-- Modelled from the spec: the recursive AMF0 value sum type of the design
notes, `Null | Number(f64) | Boolean | Utf8String | Object(Map<String,
Amf0Value>) | EcmaArray | StrictArray(...)`, with property maps as
association lists and the Boolean alternative named BoolData. The rml_amf0
crate that implements it is not part of the provided sources. -/
inductive Amf0Value : Type
  | Null : Amf0Value
  | Number (bits : F64) : Amf0Value
  | BoolData (b : Bool) : Amf0Value
  | Utf8String (s : List Byte) : Amf0Value
  | Object (props : List (List Byte × Amf0Value)) : Amf0Value
  | EcmaArray (props : List (List Byte × Amf0Value)) : Amf0Value
  | StrictArray (vs : List Amf0Value) : Amf0Value

mutual

/-- Modelled from the spec: the provided AMF0 encoder primitive for a single
value (marker byte followed by the value's payload, lengths big-endian). -/
def encodeVal : Amf0Value → List Byte
  | .Null => [byteOf 5]
  | .Number bits => byteOf 0 :: be64 bits.val
  | .BoolData b => [byteOf 1, if b then byteOf 1 else byteOf 0]
  | .Utf8String s => byteOf 2 :: (be32 s.length ++ s)
  | .Object props => byteOf 3 :: (be32 props.length ++ encodeProps props)
  | .EcmaArray props => byteOf 8 :: (be32 props.length ++ encodeProps props)
  | .StrictArray vs => byteOf 10 :: (be32 vs.length ++ encodeVals vs)

/-- Modelled from the spec: encoding of an AMF0 property list (each entry a
length-prefixed key followed by the encoded value). -/
def encodeProps : List (List Byte × Amf0Value) → List Byte
  | [] => []
  | (k, v) :: rest => be32 k.length ++ k ++ encodeVal v ++ encodeProps rest

/-- Modelled from the spec: concatenated encoding of a list of AMF0 values
(the body of an AMF0 data or command message). -/
def encodeVals : List Amf0Value → List Byte
  | [] => []
  | v :: rest => encodeVal v ++ encodeVals rest

end

mutual

/-- Modelled from the spec: representability of an AMF0 value on the wire
(every length field fits in the u32 length prefix the encoder writes). -/
def vWF : Amf0Value → Bool
  | .Null => true
  | .Number _ => true
  | .BoolData _ => true
  | .Utf8String s => decide (s.length < 4294967296)
  | .Object props => decide (props.length < 4294967296) && pWF props
  | .EcmaArray props => decide (props.length < 4294967296) && pWF props
  | .StrictArray vs => decide (vs.length < 4294967296) && lWF vs

/-- Representability of an AMF0 property list. -/
def pWF : List (List Byte × Amf0Value) → Bool
  | [] => true
  | (k, v) :: rest => decide (k.length < 4294967296) && vWF v && pWF rest

/-- Representability of a list of AMF0 values. -/
def lWF : List Amf0Value → Bool
  | [] => true
  | v :: rest => vWF v && lWF rest

end

/-- Reading of an 8-byte big-endian number payload. -/
def decodeNum : List Byte → Option (Amf0Value × List Byte)
  | b0 :: b1 :: b2 :: b3 :: b4 :: b5 :: b6 :: b7 :: r =>
    some (.Number (mk64 b0 b1 b2 b3 b4 b5 b6 b7), r)
  | _ => none

/-- Reading of a one-byte boolean payload. -/
def decodeBool : List Byte → Option (Amf0Value × List Byte)
  | b :: r => some (.BoolData (b.val != 0), r)
  | _ => none

/-- Reading of a 4-byte big-endian length followed by that many bytes. -/
def decodeChunk : List Byte → Option (List Byte × List Byte)
  | c0 :: c1 :: c2 :: c3 :: r =>
    let n := rd32 c0 c1 c2 c3
    if n ≤ r.length then some (r.take n, r.drop n) else none
  | _ => none

/-- Reading of a 4-byte big-endian element count. -/
def decodeCount : List Byte → Option (Nat × List Byte)
  | c0 :: c1 :: c2 :: c3 :: r => some (rd32 c0 c1 c2 c3, r)
  | _ => none

mutual

/-- Modelled from the spec: the provided AMF0 decoder primitive for a single
value. The fuel argument bounds the recursion depth; the top-level decoder
passes the byte count, which suffices because every value consumes at least
one byte per nesting level. -/
def decodeVal : Nat → List Byte → Option (Amf0Value × List Byte)
  | 0, _ => none
  | _ + 1, [] => none
  | fuel + 1, m :: rest =>
    if m.val = 0 then decodeNum rest
    else if m.val = 1 then decodeBool rest
    else if m.val = 2 then
      match decodeChunk rest with
      | some (s, r) => some (.Utf8String s, r)
      | none => none
    else if m.val = 5 then some (.Null, rest)
    else if m.val = 3 then
      match decodeCount rest with
      | some (n, r) =>
        match decodePairs fuel n r with
        | some (props, r2) => some (.Object props, r2)
        | none => none
      | none => none
    else if m.val = 8 then
      match decodeCount rest with
      | some (n, r) =>
        match decodePairs fuel n r with
        | some (props, r2) => some (.EcmaArray props, r2)
        | none => none
      | none => none
    else if m.val = 10 then
      match decodeCount rest with
      | some (n, r) =>
        match decodeList fuel n r with
        | some (vs, r2) => some (.StrictArray vs, r2)
        | none => none
      | none => none
    else none
termination_by fuel bs => (fuel, 0)

/-- Decoding of a counted AMF0 property list. -/
def decodePairs : Nat → Nat → List Byte → Option (List (List Byte × Amf0Value) × List Byte)
  | _, 0, bs => some ([], bs)
  | fuel, n + 1, bs =>
    match decodeChunk bs with
    | some (k, r) =>
      match decodeVal fuel r with
      | some (v, r2) =>
        match decodePairs fuel n r2 with
        | some (ps, r3) => some ((k, v) :: ps, r3)
        | none => none
      | none => none
    | none => none
termination_by fuel n bs => (fuel, n + 1)

/-- Decoding of a counted list of AMF0 values. -/
def decodeList : Nat → Nat → List Byte → Option (List Amf0Value × List Byte)
  | _, 0, bs => some ([], bs)
  | fuel, n + 1, bs =>
    match decodeVal fuel bs with
    | some (v, r) =>
      match decodeList fuel n r with
      | some (vs, r2) => some (v :: vs, r2)
      | none => none
    | none => none
termination_by fuel n bs => (fuel, n + 1)

end

/-- Modelled from the spec: decoding of a whole AMF0 message body into its
list of values, consuming values until the body is exhausted. -/
def decodeAll : Nat → List Byte → Option (List Amf0Value)
  | _, [] => some []
  | 0, _ :: _ => none
  | fuel + 1, b :: bs =>
    match decodeVal (fuel + 1) (b :: bs) with
    | some (v, rest) =>
      match decodeAll fuel rest with
      | some vs => some (v :: vs)
      | none => none
    | none => none

/-- Modelled from the spec: the provided AMF0 decode primitive,
`decode(bytes) to values`. -/
def amf0Decode (data : List Byte) : Option (List Amf0Value) :=
  decodeAll data.length data

@[simp] theorem byteOf_val (n : Nat) : (byteOf n).val = n % 256 := rfl

theorem encodeVal_length_pos (v : Amf0Value) : 0 < (encodeVal v).length := by
  cases v <;> simp [encodeVal, be64, be32]

theorem decodeChunk_encoded (k r : List Byte) (hk : k.length < 4294967296) :
    decodeChunk (be32 k.length ++ (k ++ r)) = some (k, r) := by
  simp only [be32, List.cons_append, List.nil_append, decodeChunk]
  rw [rd32_be32 k.length hk]
  have hle : k.length ≤ (k ++ r).length := by simp [List.length_append]
  rw [if_pos hle, take_len_append, drop_len_append]

theorem decodeCount_encoded (n : Nat) (hn : n < 4294967296) (r : List Byte) :
    decodeCount (be32 n ++ r) = some (n, r) := by
  simp only [be32, List.cons_append, List.nil_append, decodeCount]
  rw [rd32_be32 n hn]

theorem decodeVal_encodeVal :
    ∀ fuel (v : Amf0Value) (rest : List Byte), vWF v = true →
      (encodeVal v ++ rest).length ≤ fuel →
      decodeVal fuel (encodeVal v ++ rest) = some (v, rest) := by
  intro fuel
  induction fuel with
  | zero =>
    intro v rest _ hlen
    have hpos := encodeVal_length_pos v
    simp only [List.length_append] at hlen
    omega
  | succ fuel ih =>
    have hpairs : ∀ (props : List (List Byte × Amf0Value)) (r2 : List Byte),
        pWF props = true → (encodeProps props ++ r2).length ≤ fuel →
        decodePairs fuel props.length (encodeProps props ++ r2) = some (props, r2) := by
      intro props
      induction props with
      | nil =>
        intro r2 _ _
        simp [encodeProps, decodePairs]
      | cons p ps ihp =>
        obtain ⟨k, v⟩ := p
        intro r2 hwf hlen
        simp only [pWF, Bool.and_eq_true, decide_eq_true_eq] at hwf
        obtain ⟨⟨hk, hv⟩, hps⟩ := hwf
        have hvlen : (encodeVal v ++ (encodeProps ps ++ r2)).length ≤ fuel := by
          simp only [encodeProps, be32, List.append_assoc, List.length_append,
            List.length_cons, List.length_nil] at hlen ⊢
          omega
        have hplen : (encodeProps ps ++ r2).length ≤ fuel := by
          have hp := encodeVal_length_pos v
          simp only [List.length_append] at hvlen ⊢
          omega
        simp only [encodeProps, List.append_assoc, List.length_cons, decodePairs]
        rw [decodeChunk_encoded k (encodeVal v ++ (encodeProps ps ++ r2)) hk]
        simp [ih v (encodeProps ps ++ r2) hv hvlen, ihp r2 hps hplen]
    have hlist : ∀ (vs : List Amf0Value) (r2 : List Byte),
        lWF vs = true → (encodeVals vs ++ r2).length ≤ fuel →
        decodeList fuel vs.length (encodeVals vs ++ r2) = some (vs, r2) := by
      intro vs
      induction vs with
      | nil =>
        intro r2 _ _
        simp [encodeVals, decodeList]
      | cons v vs2 ihl =>
        intro r2 hwf hlen
        simp only [lWF, Bool.and_eq_true] at hwf
        obtain ⟨hv, hvs⟩ := hwf
        have hvlen : (encodeVal v ++ (encodeVals vs2 ++ r2)).length ≤ fuel := by
          simp only [encodeVals, List.append_assoc, List.length_append] at hlen ⊢
          omega
        have hplen : (encodeVals vs2 ++ r2).length ≤ fuel := by
          have hp := encodeVal_length_pos v
          simp only [List.length_append] at hvlen ⊢
          omega
        simp only [encodeVals, List.append_assoc, List.length_cons, decodeList]
        simp [ih v (encodeVals vs2 ++ r2) hv hvlen, ihl r2 hvs hplen]
    intro v rest hwf hlen
    cases v with
    | Null =>
      simp only [encodeVal, List.cons_append, List.nil_append, decodeVal]
      norm_num
    | Number bits =>
      simp only [encodeVal, be64, List.cons_append, List.nil_append, decodeVal]
      norm_num [decodeNum, mk64_be64 bits]
    | BoolData b =>
      cases b <;>
        simp only [encodeVal, List.cons_append, List.nil_append, decodeVal, if_true, if_false] <;>
        norm_num [decodeBool]
    | Utf8String s =>
      simp only [vWF, decide_eq_true_eq] at hwf
      simp only [encodeVal, List.cons_append, List.append_assoc, decodeVal]
      norm_num
      rw [decodeChunk_encoded s rest hwf]
    | Object props =>
      simp only [vWF, Bool.and_eq_true, decide_eq_true_eq] at hwf
      obtain ⟨hplt, hp⟩ := hwf
      have hplen : (encodeProps props ++ rest).length ≤ fuel := by
        simp only [encodeVal, be32, List.append_assoc, List.length_append,
          List.length_cons, List.length_nil] at hlen ⊢
        omega
      simp only [encodeVal, List.cons_append, List.append_assoc, decodeVal]
      norm_num
      rw [decodeCount_encoded props.length hplt (encodeProps props ++ rest)]
      simp [hpairs props rest hp hplen]
    | EcmaArray props =>
      simp only [vWF, Bool.and_eq_true, decide_eq_true_eq] at hwf
      obtain ⟨hplt, hp⟩ := hwf
      have hplen : (encodeProps props ++ rest).length ≤ fuel := by
        simp only [encodeVal, be32, List.append_assoc, List.length_append,
          List.length_cons, List.length_nil] at hlen ⊢
        omega
      simp only [encodeVal, List.cons_append, List.append_assoc, decodeVal]
      norm_num
      rw [decodeCount_encoded props.length hplt (encodeProps props ++ rest)]
      simp [hpairs props rest hp hplen]
    | StrictArray vs =>
      simp only [vWF, Bool.and_eq_true, decide_eq_true_eq] at hwf
      obtain ⟨hplt, hp⟩ := hwf
      have hplen : (encodeVals vs ++ rest).length ≤ fuel := by
        simp only [encodeVal, be32, List.append_assoc, List.length_append,
          List.length_cons, List.length_nil] at hlen ⊢
        omega
      simp only [encodeVal, List.cons_append, List.append_assoc, decodeVal]
      norm_num
      rw [decodeCount_encoded vs.length hplt (encodeVals vs ++ rest)]
      simp [hlist vs rest hp hplen]

theorem decodeAll_encodeVals :
    ∀ (vs : List Amf0Value) (fuel : Nat), lWF vs = true →
      (encodeVals vs).length ≤ fuel →
      decodeAll fuel (encodeVals vs) = some vs := by
  intro vs
  induction vs with
  | nil =>
    intro fuel _ _
    cases fuel <;> simp [encodeVals, decodeAll]
  | cons v vs2 ihl =>
    intro fuel hwf hlen
    simp only [lWF, Bool.and_eq_true] at hwf
    obtain ⟨hv, hvs⟩ := hwf
    cases fuel with
    | zero =>
      have hpos := encodeVal_length_pos v
      simp only [encodeVals, List.length_append] at hlen
      omega
    | succ fuel =>
      have hd : decodeVal (fuel + 1) (encodeVal v ++ encodeVals vs2) = some (v, encodeVals vs2) :=
        decodeVal_encodeVal (fuel + 1) v (encodeVals vs2) hv (by simpa [encodeVals] using hlen)
      obtain ⟨c, cs, hE⟩ : ∃ c cs, encodeVal v = c :: cs := by
        cases hEV : encodeVal v with
        | nil => exact absurd (encodeVal_length_pos v) (by simp [hEV])
        | cons c cs => exact ⟨c, cs, rfl⟩
      have hrest : (encodeVals vs2).length ≤ fuel := by
        have hpos := encodeVal_length_pos v
        simp only [encodeVals, List.length_append] at hlen
        omega
      simp only [encodeVals, hE, List.cons_append] at hd ⊢
      simp only [decodeAll]
      rw [hd]
      simp [ihl fuel hvs hrest]

theorem amf0Decode_encodeVals (vs : List Amf0Value) (h : lWF vs = true) :
    amf0Decode (encodeVals vs) = some vs :=
  decodeAll_encodeVals vs (encodeVals vs).length h (Nat.le_refl _)

/-! Message-level error taxonomy (spec section 7) and the RtmpMessage sum
type (spec section 3). -/

/-- Modelled from the spec: the SerializationError taxonomy, plus a variant
for a UserControl message that lacks the fields its event type carries (the
spec leaves that case unnamed). -/
inductive MessageSerializationError : Type
  | MessageTooLarge : MessageSerializationError
  | InvalidChunkSize : MessageSerializationError
  | Amf0EncodeFailed : MessageSerializationError
  | InvalidEventFields : MessageSerializationError
deriving DecidableEq

/-- Modelled from the spec: the message-level DeserializationError taxonomy. -/
inductive MessageDeserializationError : Type
  | IoShort : MessageDeserializationError
  | InvalidUserControlEventType : MessageDeserializationError
  | InvalidPeerBandwidthLimitType : MessageDeserializationError
  | Amf0DecodeFailed : MessageDeserializationError
  | InvalidCommandFormat : MessageDeserializationError
deriving DecidableEq

/-- Modelled from the spec: the SetPeerBandwidth limit type,
`Hard(0) | Soft(1) | Dynamic(2)`. -/
inductive PeerBandwidthLimitType : Type
  | Hard : PeerBandwidthLimitType
  | Soft : PeerBandwidthLimitType
  | Dynamic : PeerBandwidthLimitType
deriving DecidableEq

/-- Modelled from the spec: the UserControl event types,
`StreamBegin(0), StreamEof(1), StreamDry(2), SetBufferLength(3),
StreamIsRecorded(4), PingRequest(6), PingResponse(7)`. -/
inductive UserControlEventType : Type
  | StreamBegin : UserControlEventType
  | StreamEof : UserControlEventType
  | StreamDry : UserControlEventType
  | SetBufferLength : UserControlEventType
  | StreamIsRecorded : UserControlEventType
  | PingRequest : UserControlEventType
  | PingResponse : UserControlEventType
deriving DecidableEq

/-- The RtmpMessage sum type of the spec's data model; timestamps are
32-bit milliseconds, media payloads are opaque byte blobs. -/
inductive RtmpMessage : Type
  | Unknown (type_id : Byte) (data : List Byte) : RtmpMessage
  | Abort (stream_id : U32) : RtmpMessage
  | Acknowledgement (sequence_number : U32) : RtmpMessage
  | Amf0Command (command_name : List Byte) (transaction_id : F64)
      (command_object : Amf0Value) (additional_arguments : List Amf0Value) : RtmpMessage
  | Amf0Data (values : List Amf0Value) : RtmpMessage
  | AudioData (data : List Byte) : RtmpMessage
  | SetChunkSize (size : U32) : RtmpMessage
  | SetPeerBandwidth (size : U32) (limit_type : PeerBandwidthLimitType) : RtmpMessage
  | UserControl (event_type : UserControlEventType) (stream_id : Option U32)
      (buffer_length : Option U32) (timestamp : Option U32) : RtmpMessage
  | VideoData (data : List Byte) : RtmpMessage
  | WindowAcknowledgement (size : U32) : RtmpMessage

/-- Modelled from the spec: the serialized type id of each variant (the
type-id column of the spec's message table); `rtmp_message.rs` itself is not
part of the provided sources. -/
def RtmpMessage.get_message_type_id : RtmpMessage → Byte
  | .Unknown type_id _ => type_id
  | .Abort _ => byteOf 2
  | .Acknowledgement _ => byteOf 3
  | .Amf0Command _ _ _ _ => byteOf 20
  | .Amf0Data _ => byteOf 18
  | .AudioData _ => byteOf 8
  | .SetChunkSize _ => byteOf 1
  | .SetPeerBandwidth _ _ => byteOf 6
  | .UserControl _ _ _ _ => byteOf 4
  | .VideoData _ => byteOf 9
  | .WindowAcknowledgement _ => byteOf 5

/-! Per-message-type body codecs. The abort codec is translated from
src/rtmp/src/messages/types/abort.rs; the remaining codecs are not part of
the provided sources and are modelled from spec section 4.2. -/

namespace abort

/-- abort::serialize from src/rtmp/src/messages/types/abort.rs: write the
stream id as a big-endian u32. -/
def serialize (stream_id : U32) : Except MessageSerializationError (List Byte) :=
  .ok (be32 stream_id.val)

/-- abort::deserialize from src/rtmp/src/messages/types/abort.rs: read a
big-endian u32 from the front of the slice (an error if fewer than 4 bytes
remain; trailing bytes are not inspected). -/
def deserialize (data : List Byte) : Except MessageDeserializationError RtmpMessage :=
  match data with
  | b0 :: b1 :: b2 :: b3 :: _ => .ok (.Abort (mk32 b0 b1 b2 b3))
  | _ => .error .IoShort

end abort

namespace acknowledgement

/-- Modelled from the spec: Acknowledgement is a single big-endian u32. -/
def serialize (sequence_number : U32) : Except MessageSerializationError (List Byte) :=
  .ok (be32 sequence_number.val)

/-- Modelled from the spec: read the sequence number as a big-endian u32. -/
def deserialize (data : List Byte) : Except MessageDeserializationError RtmpMessage :=
  match data with
  | b0 :: b1 :: b2 :: b3 :: _ => .ok (.Acknowledgement (mk32 b0 b1 b2 b3))
  | _ => .error .IoShort

end acknowledgement

namespace window_acknowledgement_size

/-- Modelled from the spec: WindowAcknowledgement is a single big-endian
u32. -/
def serialize (size : U32) : Except MessageSerializationError (List Byte) :=
  .ok (be32 size.val)

/-- Modelled from the spec: read the window size as a big-endian u32. -/
def deserialize (data : List Byte) : Except MessageDeserializationError RtmpMessage :=
  match data with
  | b0 :: b1 :: b2 :: b3 :: _ => .ok (.WindowAcknowledgement (mk32 b0 b1 b2 b3))
  | _ => .error .IoShort

end window_acknowledgement_size

namespace set_chunk_size

/-- Modelled from the spec: SetChunkSize is 4 bytes with the high bit forced
to 0 on write. -/
def serialize (size : U32) : Except MessageSerializationError (List Byte) :=
  .ok (be32 (size.val % 2147483648))

/-- Modelled from the spec: read a big-endian u32 and mask off the high
bit. -/
def deserialize (data : List Byte) : Except MessageDeserializationError RtmpMessage :=
  match data with
  | b0 :: b1 :: b2 :: b3 :: _ =>
    .ok (.SetChunkSize ⟨rd32 b0 b1 b2 b3 % 2147483648,
      Nat.lt_trans (Nat.mod_lt _ (by decide)) (by decide)⟩)
  | _ => .error .IoShort

end set_chunk_size

namespace set_peer_bandwidth

/-- Modelled from the spec: SetPeerBandwidth is a big-endian u32 size
followed by a u8 limit type (0, 1 or 2). -/
def serialize (limit_type : PeerBandwidthLimitType) (size : U32) :
    Except MessageSerializationError (List Byte) :=
  let lb : Byte :=
    match limit_type with
    | .Hard => byteOf 0
    | .Soft => byteOf 1
    | .Dynamic => byteOf 2
  .ok (be32 size.val ++ [lb])

/-- Modelled from the spec: read the size then the limit type; an unknown
limit type fails deserialization with a format error. -/
def deserialize (data : List Byte) : Except MessageDeserializationError RtmpMessage :=
  match data with
  | b0 :: b1 :: b2 :: b3 :: l :: _ =>
    if l.val = 0 then .ok (.SetPeerBandwidth (mk32 b0 b1 b2 b3) .Hard)
    else if l.val = 1 then .ok (.SetPeerBandwidth (mk32 b0 b1 b2 b3) .Soft)
    else if l.val = 2 then .ok (.SetPeerBandwidth (mk32 b0 b1 b2 b3) .Dynamic)
    else .error .InvalidPeerBandwidthLimitType
  | _ => .error .IoShort

end set_peer_bandwidth

namespace user_control

/-- Modelled from the spec: UserControl is a u16 event type followed by the
event-specific fields (stream id for StreamBegin/Eof/Dry/StreamIsRecorded,
stream id plus buffer length for SetBufferLength, timestamp for
PingRequest/PingResponse). The spec leaves serialization without the
event's required fields unspecified; it is modelled as an error. -/
def serialize (event_type : UserControlEventType) (stream_id : Option U32)
    (buffer_length : Option U32) (timestamp : Option U32) :
    Except MessageSerializationError (List Byte) :=
  match event_type, stream_id, buffer_length, timestamp with
  | .StreamBegin, some sid, _, _ => .ok (be16 0 ++ be32 sid.val)
  | .StreamBegin, none, _, _ => .error .InvalidEventFields
  | .StreamEof, some sid, _, _ => .ok (be16 1 ++ be32 sid.val)
  | .StreamEof, none, _, _ => .error .InvalidEventFields
  | .StreamDry, some sid, _, _ => .ok (be16 2 ++ be32 sid.val)
  | .StreamDry, none, _, _ => .error .InvalidEventFields
  | .SetBufferLength, some sid, some blen, _ => .ok (be16 3 ++ be32 sid.val ++ be32 blen.val)
  | .SetBufferLength, _, _, _ => .error .InvalidEventFields
  | .StreamIsRecorded, some sid, _, _ => .ok (be16 4 ++ be32 sid.val)
  | .StreamIsRecorded, none, _, _ => .error .InvalidEventFields
  | .PingRequest, _, _, some ts => .ok (be16 6 ++ be32 ts.val)
  | .PingRequest, _, _, none => .error .InvalidEventFields
  | .PingResponse, _, _, some ts => .ok (be16 7 ++ be32 ts.val)
  | .PingResponse, _, _, none => .error .InvalidEventFields

/-- Modelled from the spec: read the u16 event type, then the event-specific
fields; unknown event types fail deserialization. -/
def deserialize (data : List Byte) : Except MessageDeserializationError RtmpMessage :=
  match data with
  | e0 :: e1 :: rest =>
    let code := rd16 e0 e1
    if code = 0 then
      match rest with
      | b0 :: b1 :: b2 :: b3 :: _ =>
        .ok (.UserControl .StreamBegin (some (mk32 b0 b1 b2 b3)) none none)
      | _ => .error .IoShort
    else if code = 1 then
      match rest with
      | b0 :: b1 :: b2 :: b3 :: _ =>
        .ok (.UserControl .StreamEof (some (mk32 b0 b1 b2 b3)) none none)
      | _ => .error .IoShort
    else if code = 2 then
      match rest with
      | b0 :: b1 :: b2 :: b3 :: _ =>
        .ok (.UserControl .StreamDry (some (mk32 b0 b1 b2 b3)) none none)
      | _ => .error .IoShort
    else if code = 3 then
      match rest with
      | b0 :: b1 :: b2 :: b3 :: c0 :: c1 :: c2 :: c3 :: _ =>
        .ok (.UserControl .SetBufferLength (some (mk32 b0 b1 b2 b3))
          (some (mk32 c0 c1 c2 c3)) none)
      | _ => .error .IoShort
    else if code = 4 then
      match rest with
      | b0 :: b1 :: b2 :: b3 :: _ =>
        .ok (.UserControl .StreamIsRecorded (some (mk32 b0 b1 b2 b3)) none none)
      | _ => .error .IoShort
    else if code = 6 then
      match rest with
      | b0 :: b1 :: b2 :: b3 :: _ =>
        .ok (.UserControl .PingRequest none none (some (mk32 b0 b1 b2 b3)))
      | _ => .error .IoShort
    else if code = 7 then
      match rest with
      | b0 :: b1 :: b2 :: b3 :: _ =>
        .ok (.UserControl .PingResponse none none (some (mk32 b0 b1 b2 b3)))
      | _ => .error .IoShort
    else .error .InvalidUserControlEventType
  | _ => .error .IoShort

end user_control

namespace audio_data

/-- Modelled from the spec: AudioData is opaque bytes, passed through. -/
def serialize (data : List Byte) : Except MessageSerializationError (List Byte) :=
  .ok data

/-- Modelled from the spec: the body is the audio payload itself. -/
def deserialize (data : List Byte) : Except MessageDeserializationError RtmpMessage :=
  .ok (.AudioData data)

end audio_data

namespace video_data

/-- Modelled from the spec: VideoData is opaque bytes, passed through. -/
def serialize (data : List Byte) : Except MessageSerializationError (List Byte) :=
  .ok data

/-- Modelled from the spec: the body is the video payload itself. -/
def deserialize (data : List Byte) : Except MessageDeserializationError RtmpMessage :=
  .ok (.VideoData data)

end video_data

/-- Modelled from the spec: the provided AMF0 encode primitive,
`encode(values) to bytes`; it fails when a length field does not fit the
u32 length prefix. -/
def amf0Encode (values : List Amf0Value) : Except MessageSerializationError (List Byte) :=
  if lWF values then .ok (encodeVals values) else .error .Amf0EncodeFailed

namespace amf0_data

/-- Modelled from the spec: AMF0-encode the argument list concatenated. -/
def serialize (values : List Amf0Value) : Except MessageSerializationError (List Byte) :=
  amf0Encode values

/-- Modelled from the spec: decode the body as a list of AMF0 values. -/
def deserialize (data : List Byte) : Except MessageDeserializationError RtmpMessage :=
  match amf0Decode data with
  | some values => .ok (.Amf0Data values)
  | none => .error .Amf0DecodeFailed

end amf0_data

namespace amf0_command

/-- Modelled from the spec: AMF0-encode `[command_name, transaction_id,
command_object, *additional_arguments]` concatenated. -/
def serialize (command_name : List Byte) (transaction_id : F64)
    (command_object : Amf0Value) (additional_arguments : List Amf0Value) :
    Except MessageSerializationError (List Byte) :=
  amf0Encode (.Utf8String command_name :: .Number transaction_id ::
    command_object :: additional_arguments)

/-- Modelled from the spec: decode the body as AMF0 values; the first must be
the command-name string, the second the transaction-id number, the third the
command object, and the remainder the additional arguments. -/
def deserialize (data : List Byte) : Except MessageDeserializationError RtmpMessage :=
  match amf0Decode data with
  | some (.Utf8String command_name :: .Number transaction_id :: command_object :: rest) =>
    .ok (.Amf0Command command_name transaction_id command_object rest)
  | some _ => .error .InvalidCommandFormat
  | none => .error .Amf0DecodeFailed

end amf0_command

/-- The raw RTMP message of src/rtmp/src/messages/message_payload.rs:
timestamp, type id, message stream id and the exact wire bytes of one
message body. -/
structure MessagePayload : Type where
  timestamp : U32
  type_id : Byte
  message_stream_id : U32
  data : List Byte

/-- MessagePayload::new from message_payload.rs. -/
def MessagePayload.new : MessagePayload :=
  { timestamp := 0, message_stream_id := 0, type_id := 0, data := [] }

/-- MessagePayload::to_rtmp_message from message_payload.rs: dispatch on the
type id; 15 is decoded as AMF0 data and 17 as an AMF0 command whose leading
0x00 byte, when the data is non-empty and starts with 0x00, is skipped; any
other unlisted type id is passed through as Unknown. -/
def MessagePayload.to_rtmp_message (p : MessagePayload) :
    Except MessageDeserializationError RtmpMessage :=
  if p.type_id.val = 1 then set_chunk_size.deserialize p.data
  else if p.type_id.val = 2 then abort.deserialize p.data
  else if p.type_id.val = 3 then acknowledgement.deserialize p.data
  else if p.type_id.val = 4 then user_control.deserialize p.data
  else if p.type_id.val = 5 then window_acknowledgement_size.deserialize p.data
  else if p.type_id.val = 6 then set_peer_bandwidth.deserialize p.data
  else if p.type_id.val = 8 then audio_data.deserialize p.data
  else if p.type_id.val = 9 then video_data.deserialize p.data
  else if p.type_id.val = 18 then amf0_data.deserialize p.data
  else if p.type_id.val = 20 then amf0_command.deserialize p.data
  else if p.type_id.val = 15 then amf0_data.deserialize p.data
  else if p.type_id.val = 17 then
    match p.data with
    | b :: rest =>
      if b.val = 0 then amf0_command.deserialize rest
      else amf0_command.deserialize (b :: rest)
    | [] => amf0_command.deserialize []
  else .ok (.Unknown p.type_id p.data)

/-- MessagePayload::from_rtmp_message from message_payload.rs: serialize the
variant's body with the matching codec (Unknown passes its raw data through)
and pair it with the variant's type id and the given timestamp and message
stream id. -/
def MessagePayload.from_rtmp_message (message : RtmpMessage)
    (timestamp : U32) (message_stream_id : U32) :
    Except MessageSerializationError MessagePayload :=
  let type_id := message.get_message_type_id
  let bytesE : Except MessageSerializationError (List Byte) :=
    match message with
    | .Unknown _ data => .ok data
    | .Abort stream_id => abort.serialize stream_id
    | .Acknowledgement sequence_number => acknowledgement.serialize sequence_number
    | .Amf0Command command_name transaction_id command_object additional_arguments =>
      amf0_command.serialize command_name transaction_id command_object additional_arguments
    | .Amf0Data values => amf0_data.serialize values
    | .AudioData data => audio_data.serialize data
    | .SetChunkSize size => set_chunk_size.serialize size
    | .SetPeerBandwidth size limit_type => set_peer_bandwidth.serialize limit_type size
    | .UserControl event_type stream_id buffer_length timestamp =>
      user_control.serialize event_type stream_id buffer_length timestamp
    | .VideoData data => video_data.serialize data
    | .WindowAcknowledgement size => window_acknowledgement_size.serialize size
  match bytesE with
  | .ok bytes =>
    .ok { data := bytes, type_id := type_id,
          message_stream_id := message_stream_id, timestamp := timestamp }
  | .error e => .error e

/-! Round-trip facts for the individual message body codecs. -/

theorem abort_roundtrip (sid : U32) :
    abort.deserialize (be32 sid.val) = .ok (.Abort sid) := by
  simp [abort.deserialize, be32, mk32_be32 sid]

theorem acknowledgement_roundtrip (n : U32) :
    acknowledgement.deserialize (be32 n.val) = .ok (.Acknowledgement n) := by
  simp [acknowledgement.deserialize, be32, mk32_be32 n]

theorem window_ack_roundtrip (n : U32) :
    window_acknowledgement_size.deserialize (be32 n.val) = .ok (.WindowAcknowledgement n) := by
  simp [window_acknowledgement_size.deserialize, be32, mk32_be32 n]

theorem set_chunk_size_roundtrip (size : U32) (h : size.val < 2147483648) :
    set_chunk_size.deserialize (be32 (size.val % 2147483648)) = .ok (.SetChunkSize size) := by
  simp only [Nat.mod_eq_of_lt h, be32, set_chunk_size.deserialize,
    Except.ok.injEq, RtmpMessage.SetChunkSize.injEq, Fin.ext_iff]
  rw [rd32_be32 size.val size.isLt]
  exact Nat.mod_eq_of_lt h

theorem set_peer_bandwidth_roundtrip (size : U32) (lt : PeerBandwidthLimitType) (bytes : List Byte)
    (h : set_peer_bandwidth.serialize lt size = .ok bytes) :
    set_peer_bandwidth.deserialize bytes = .ok (.SetPeerBandwidth size lt) := by
  cases lt <;>
    simp only [set_peer_bandwidth.serialize, Except.ok.injEq] at h <;>
    subst h <;>
    simp [set_peer_bandwidth.deserialize, be32, mk32_be32 size]

/-- The well-formedness domain of the round-trip law (see the C1 claim):
SetChunkSize must have the high bit clear, UserControl must carry exactly
the fields its event type writes, and Unknown must carry a type id that
to_rtmp_message does not dispatch on. -/
def RtmpMessage.roundTrippable : RtmpMessage → Bool
  | .Unknown tid _ => decide (tid.val ∉ [1, 2, 3, 4, 5, 6, 8, 9, 15, 17, 18, 20])
  | .SetChunkSize size => decide (size.val < 2147483648)
  | .UserControl et sid blen ts =>
    (match et with
     | .StreamBegin | .StreamEof | .StreamDry | .StreamIsRecorded =>
       sid.isSome && blen.isNone && ts.isNone
     | .SetBufferLength => sid.isSome && blen.isSome && ts.isNone
     | .PingRequest | .PingResponse => sid.isNone && blen.isNone && ts.isSome)
  | _ => true

theorem user_control_roundtrip (et : UserControlEventType) (sid blen ts : Option U32)
    (bytes : List Byte)
    (hwf : (RtmpMessage.UserControl et sid blen ts).roundTrippable = true)
    (h : user_control.serialize et sid blen ts = .ok bytes) :
    user_control.deserialize bytes = .ok (.UserControl et sid blen ts) := by
  cases et <;>
    simp only [RtmpMessage.roundTrippable, Bool.and_eq_true, Option.isSome_iff_exists,
      Option.isNone_iff_eq_none] at hwf
  case StreamBegin =>
    obtain ⟨⟨⟨s, rfl⟩, rfl⟩, rfl⟩ := hwf
    simp only [user_control.serialize, Except.ok.injEq] at h
    subst h
    simp [user_control.deserialize, be16, be32, rd16, mk32_be32 s]
  case StreamEof =>
    obtain ⟨⟨⟨s, rfl⟩, rfl⟩, rfl⟩ := hwf
    simp only [user_control.serialize, Except.ok.injEq] at h
    subst h
    simp [user_control.deserialize, be16, be32, rd16, mk32_be32 s]
  case StreamDry =>
    obtain ⟨⟨⟨s, rfl⟩, rfl⟩, rfl⟩ := hwf
    simp only [user_control.serialize, Except.ok.injEq] at h
    subst h
    simp [user_control.deserialize, be16, be32, rd16, mk32_be32 s]
  case SetBufferLength =>
    obtain ⟨⟨⟨s, rfl⟩, ⟨b, rfl⟩⟩, rfl⟩ := hwf
    simp only [user_control.serialize, Except.ok.injEq] at h
    subst h
    simp [user_control.deserialize, be16, be32, rd16, mk32_be32 s, mk32_be32 b]
  case StreamIsRecorded =>
    obtain ⟨⟨⟨s, rfl⟩, rfl⟩, rfl⟩ := hwf
    simp only [user_control.serialize, Except.ok.injEq] at h
    subst h
    simp [user_control.deserialize, be16, be32, rd16, mk32_be32 s]
  case PingRequest =>
    obtain ⟨⟨rfl, rfl⟩, t, rfl⟩ := hwf
    simp only [user_control.serialize, Except.ok.injEq] at h
    subst h
    simp [user_control.deserialize, be16, be32, rd16, mk32_be32 t]
  case PingResponse =>
    obtain ⟨⟨rfl, rfl⟩, t, rfl⟩ := hwf
    simp only [user_control.serialize, Except.ok.injEq] at h
    subst h
    simp [user_control.deserialize, be16, be32, rd16, mk32_be32 t]

theorem toRtmpMessage_unknown (p : MessagePayload)
    (h : p.type_id.val ∉ [1, 2, 3, 4, 5, 6, 8, 9, 15, 17, 18, 20]) :
    p.to_rtmp_message = .ok (.Unknown p.type_id p.data) := by
  simp only [List.mem_cons, List.not_mem_nil, or_false, not_or] at h
  obtain ⟨h1, h2, h3, h4, h5, h6, h8, h9, h15, h17, h18, h20⟩ := h
  simp [MessagePayload.to_rtmp_message, h1, h2, h3, h4, h5, h6, h8, h9, h15, h17, h18, h20]

/-- C1 (corrected): round-trip law of the message bridge. For every
RtmpMessage m, timestamp and message stream id such that serialization
succeeds, converting with from_rtmp_message and back with to_rtmp_message
yields m again, provided m is round-trippable: SetChunkSize carries a size
with the high bit clear (the codec masks that bit on both write and read),
UserControl carries exactly the fields its event type writes, and Unknown
carries a type id that to_rtmp_message does not dispatch on (an Unknown
message then has its type_id and data preserved exactly). -/
theorem from_rtmp_message_round_trip (m : RtmpMessage) (ts msid : U32) (p : MessagePayload)
    (h1 : MessagePayload.from_rtmp_message m ts msid = .ok p)
    (h2 : m.roundTrippable = true) :
    p.to_rtmp_message = .ok m := by
  cases m with
  | Unknown tid data =>
    simp only [MessagePayload.from_rtmp_message, RtmpMessage.get_message_type_id,
      Except.ok.injEq] at h1
    subst h1
    exact toRtmpMessage_unknown _
      (by simpa [RtmpMessage.roundTrippable, decide_eq_true_eq] using h2)
  | Abort sid =>
    simp only [MessagePayload.from_rtmp_message, RtmpMessage.get_message_type_id,
      abort.serialize, Except.ok.injEq] at h1
    subst h1
    simp [MessagePayload.to_rtmp_message, abort_roundtrip sid]
  | Acknowledgement n =>
    simp only [MessagePayload.from_rtmp_message, RtmpMessage.get_message_type_id,
      acknowledgement.serialize, Except.ok.injEq] at h1
    subst h1
    simp [MessagePayload.to_rtmp_message, acknowledgement_roundtrip n]
  | WindowAcknowledgement n =>
    simp only [MessagePayload.from_rtmp_message, RtmpMessage.get_message_type_id,
      window_acknowledgement_size.serialize, Except.ok.injEq] at h1
    subst h1
    simp [MessagePayload.to_rtmp_message, window_ack_roundtrip n]
  | SetChunkSize size =>
    simp only [RtmpMessage.roundTrippable, decide_eq_true_eq] at h2
    simp only [MessagePayload.from_rtmp_message, RtmpMessage.get_message_type_id,
      set_chunk_size.serialize, Except.ok.injEq] at h1
    subst h1
    simp [MessagePayload.to_rtmp_message, set_chunk_size_roundtrip size h2]
  | SetPeerBandwidth size lt =>
    have hser : ∃ bytes, set_peer_bandwidth.serialize lt size = .ok bytes := by
      cases lt <;> exact ⟨_, rfl⟩
    obtain ⟨bytes, hb⟩ := hser
    simp only [MessagePayload.from_rtmp_message, RtmpMessage.get_message_type_id, hb,
      Except.ok.injEq] at h1
    subst h1
    simp [MessagePayload.to_rtmp_message, set_peer_bandwidth_roundtrip size lt bytes hb]
  | AudioData d =>
    simp only [MessagePayload.from_rtmp_message, RtmpMessage.get_message_type_id,
      audio_data.serialize, Except.ok.injEq] at h1
    subst h1
    simp [MessagePayload.to_rtmp_message, audio_data.deserialize]
  | VideoData d =>
    simp only [MessagePayload.from_rtmp_message, RtmpMessage.get_message_type_id,
      video_data.serialize, Except.ok.injEq] at h1
    subst h1
    simp [MessagePayload.to_rtmp_message, video_data.deserialize]
  | UserControl et sid blen ts2 =>
    have hser : ∃ bytes, user_control.serialize et sid blen ts2 = .ok bytes := by
      cases hs : user_control.serialize et sid blen ts2 with
      | ok bytes => exact ⟨bytes, rfl⟩
      | error e =>
        simp only [MessagePayload.from_rtmp_message, RtmpMessage.get_message_type_id, hs] at h1
        exact Except.noConfusion h1
    obtain ⟨bytes, hb⟩ := hser
    simp only [MessagePayload.from_rtmp_message, RtmpMessage.get_message_type_id, hb,
      Except.ok.injEq] at h1
    subst h1
    simp [MessagePayload.to_rtmp_message, user_control_roundtrip et sid blen ts2 bytes h2 hb]
  | Amf0Data values =>
    simp only [MessagePayload.from_rtmp_message, RtmpMessage.get_message_type_id,
      amf0_data.serialize, amf0Encode] at h1
    by_cases hwf : lWF values = true
    · simp only [if_pos hwf, Except.ok.injEq] at h1
      subst h1
      simp [MessagePayload.to_rtmp_message, amf0_data.deserialize,
        amf0Decode_encodeVals values hwf]
    · simp only [if_neg hwf] at h1
      exact Except.noConfusion h1
  | Amf0Command name tx obj args =>
    simp only [MessagePayload.from_rtmp_message, RtmpMessage.get_message_type_id,
      amf0_command.serialize, amf0Encode] at h1
    by_cases hwf : lWF (.Utf8String name :: .Number tx :: obj :: args) = true
    · simp only [if_pos hwf, Except.ok.injEq] at h1
      subst h1
      simp [MessagePayload.to_rtmp_message, amf0_command.deserialize,
        amf0Decode_encodeVals _ hwf]
    · simp only [if_neg hwf] at h1
      exact Except.noConfusion h1

/-- C1 counterexample: the round-trip law fails as literally stated. For
m = SetChunkSize 2147483648 (high bit set) the serializer forces the high
bit to zero, so the round trip returns SetChunkSize 0, not m. -/
theorem set_chunk_size_high_bit_counterexample :
    MessagePayload.from_rtmp_message (.SetChunkSize (2147483648 : U32)) 0 0 =
      .ok { timestamp := 0, type_id := 1, message_stream_id := 0, data := [0, 0, 0, 0] } ∧
    MessagePayload.to_rtmp_message
      { timestamp := 0, type_id := 1, message_stream_id := 0, data := [0, 0, 0, 0] } =
      .ok (.SetChunkSize (0 : U32)) ∧
    (0 : U32) ≠ (2147483648 : U32) := by
  refine ⟨rfl, rfl, by decide⟩

/-- C1 witness: the Abort message with stream id 5 round trips through its
serialized payload. -/
theorem from_rtmp_message_round_trip_witness :
    (RtmpMessage.roundTrippable (.Abort 5) = true) ∧
    MessagePayload.to_rtmp_message
      { timestamp := 0, type_id := 2, message_stream_id := 0, data := [0, 0, 0, 5] } =
      .ok (.Abort 5) :=
  ⟨by decide, from_rtmp_message_round_trip (.Abort 5) 0 0 _ rfl (by decide)⟩

/-- C8: abort::serialize produces exactly the 4-byte big-endian encoding of
the u32 stream id, and deserialize of that encoding returns
Ok(Abort with the same stream id). -/
theorem abort_codec_round_trip (stream_id : U32) :
    abort.serialize stream_id = .ok (be32 stream_id.val) ∧
    (be32 stream_id.val).length = 4 ∧
    be32 stream_id.val =
      [byteOf (stream_id.val / 16777216), byteOf (stream_id.val / 65536),
       byteOf (stream_id.val / 256), byteOf stream_id.val] ∧
    abort.deserialize (be32 stream_id.val) = .ok (.Abort stream_id) :=
  ⟨rfl, rfl, rfl, abort_roundtrip stream_id⟩

/-- C9: abort::deserialize errors on every slice shorter than 4 bytes and,
on 4 or more bytes, returns Ok(Abort) with the stream id read big-endian
from the first 4 bytes, ignoring any trailing bytes. -/
theorem abort_deserialize_short_and_trailing :
    (∀ data : List Byte, data.length < 4 → abort.deserialize data = .error .IoShort) ∧
    (∀ (b0 b1 b2 b3 : Byte) (rest : List Byte),
      abort.deserialize (b0 :: b1 :: b2 :: b3 :: rest) = .ok (.Abort (mk32 b0 b1 b2 b3))) := by
  constructor
  · intro data h
    rcases data with _ | ⟨a, _ | ⟨b, _ | ⟨c, _ | ⟨d, rest⟩⟩⟩⟩
    · rfl
    · rfl
    · rfl
    · rfl
    · simp only [List.length_cons] at h
      omega
  · intro b0 b1 b2 b3 rest
    rfl

/-- C9 witness: a 2-byte slice errors with IoShort, and a 5-byte slice
decodes the first 4 bytes big-endian and ignores the fifth. -/
theorem abort_deserialize_short_witness :
    (([1, 2] : List Byte).length < 4) ∧
    abort.deserialize [1, 2] = .error .IoShort ∧
    abort.deserialize [0, 0, 1, 2, 99] = .ok (.Abort 258) := by
  refine ⟨by decide, abort_deserialize_short_and_trailing.1 [1, 2] (by decide), ?_⟩
  have h := abort_deserialize_short_and_trailing.2 0 0 1 2 [99]
  simpa [mk32, rd32] using h

/-- C6: to_rtmp_message on a payload whose type id is none of the dispatched
ids 1, 2, 3, 4, 5, 6, 8, 9, 15, 17, 18, 20 returns Ok(Unknown) carrying
exactly that type id and the payload's data; it never errors there. -/
theorem to_rtmp_message_unknown_passthrough (p : MessagePayload)
    (h : p.type_id.val ∉ [1, 2, 3, 4, 5, 6, 8, 9, 15, 17, 18, 20]) :
    p.to_rtmp_message = .ok (.Unknown p.type_id p.data) :=
  toRtmpMessage_unknown p h

/-- C6 witness: type id 7 is not dispatched, and its payload passes through
as Unknown. -/
theorem to_rtmp_message_unknown_passthrough_witness :
    ((7 : Byte).val ∉ [1, 2, 3, 4, 5, 6, 8, 9, 15, 17, 18, 20]) ∧
    MessagePayload.to_rtmp_message
      { timestamp := 0, type_id := 7, message_stream_id := 0, data := [1, 2, 3] } =
      .ok (.Unknown 7 [1, 2, 3]) :=
  ⟨by decide, to_rtmp_message_unknown_passthrough _ (by decide)⟩

/-- C10: type id 17 with empty data passes the whole (empty) body to the
AMF0 command decoder; the leading-0x00 skip happens only when the data is
non-empty and starts with 0x00. -/
theorem to_rtmp_message_type17_empty_safe (ts msid : U32) :
    (MessagePayload.to_rtmp_message
      { timestamp := ts, type_id := 17, message_stream_id := msid, data := [] } =
      amf0_command.deserialize []) ∧
    (∀ (b : Byte) (rest : List Byte), b.val ≠ 0 →
      MessagePayload.to_rtmp_message
        { timestamp := ts, type_id := 17, message_stream_id := msid, data := b :: rest } =
        amf0_command.deserialize (b :: rest)) ∧
    (∀ rest : List Byte,
      MessagePayload.to_rtmp_message
        { timestamp := ts, type_id := 17, message_stream_id := msid, data := byteOf 0 :: rest } =
        amf0_command.deserialize rest) := by
  refine ⟨rfl, ?_, fun rest => rfl⟩
  intro b rest h
  simp only [MessagePayload.to_rtmp_message, show ((17 : Byte)).val = 17 from rfl]
  norm_num
  exact fun hb => absurd hb h

/-- C10 witness: the empty 17-payload decodes like the empty command body,
and a 17-payload starting with one nonzero byte is decoded whole. -/
theorem to_rtmp_message_type17_empty_safe_witness :
    ((1 : Byte).val ≠ 0) ∧
    MessagePayload.to_rtmp_message
      { timestamp := 0, type_id := 17, message_stream_id := 0, data := [] } =
      amf0_command.deserialize [] ∧
    MessagePayload.to_rtmp_message
      { timestamp := 0, type_id := 17, message_stream_id := 0, data := [1] } =
      amf0_command.deserialize [1] :=
  ⟨by decide, (to_rtmp_message_type17_empty_safe 0 0).1,
    (to_rtmp_message_type17_empty_safe 0 0).2.1 1 [] (by decide)⟩

/-- C2: AMF3 quirk paths. A serialized Amf0Data payload whose type id is
mutated to 15 still decodes to the original message, and a serialized
Amf0Command payload relabelled to type id 17 with a 0x00 byte prefixed to
its body still decodes to the original message. -/
theorem amf3_quirk_paths :
    (∀ (values : List Amf0Value) (ts msid : U32) (p : MessagePayload),
      MessagePayload.from_rtmp_message (.Amf0Data values) ts msid = .ok p →
      MessagePayload.to_rtmp_message { p with type_id := 15 } = .ok (.Amf0Data values)) ∧
    (∀ (name : List Byte) (tx : F64) (obj : Amf0Value) (args : List Amf0Value)
       (ts msid : U32) (p : MessagePayload),
      MessagePayload.from_rtmp_message (.Amf0Command name tx obj args) ts msid = .ok p →
      MessagePayload.to_rtmp_message { p with type_id := 17, data := byteOf 0 :: p.data } =
        .ok (.Amf0Command name tx obj args)) := by
  constructor
  · intro values ts msid p h1
    simp only [MessagePayload.from_rtmp_message, RtmpMessage.get_message_type_id,
      amf0_data.serialize, amf0Encode] at h1
    by_cases hwf : lWF values = true
    · simp only [if_pos hwf, Except.ok.injEq] at h1
      subst h1
      simp [MessagePayload.to_rtmp_message, amf0_data.deserialize,
        show ((15 : Byte)).val = 15 from rfl, amf0Decode_encodeVals values hwf]
    · simp only [if_neg hwf] at h1
      exact Except.noConfusion h1
  · intro name tx obj args ts msid p h1
    simp only [MessagePayload.from_rtmp_message, RtmpMessage.get_message_type_id,
      amf0_command.serialize, amf0Encode] at h1
    by_cases hwf : lWF (.Utf8String name :: .Number tx :: obj :: args) = true
    · simp only [if_pos hwf, Except.ok.injEq] at h1
      subst h1
      simp [MessagePayload.to_rtmp_message, amf0_command.deserialize,
        show ((17 : Byte)).val = 17 from rfl, amf0Decode_encodeVals _ hwf]
    · simp only [if_neg hwf] at h1
      exact Except.noConfusion h1

/-- C2 witness: a one-number data message survives the type-15 relabelling,
and a small command message survives the type-17 relabelling with a 0x00
prefix. -/
theorem amf3_quirk_paths_witness :
    MessagePayload.from_rtmp_message (.Amf0Data [.Number (f64OfNat 23)]) 0 0 =
      .ok { timestamp := 0, type_id := 18, message_stream_id := 0,
            data := encodeVals [.Number (f64OfNat 23)] } ∧
    MessagePayload.to_rtmp_message
      { timestamp := 0, type_id := 15, message_stream_id := 0,
        data := encodeVals [.Number (f64OfNat 23)] } = .ok (.Amf0Data [.Number (f64OfNat 23)]) ∧
    MessagePayload.from_rtmp_message (.Amf0Command (str "t") (f64OfNat 15) .Null []) 0 0 =
      .ok { timestamp := 0, type_id := 20, message_stream_id := 0,
            data := encodeVals [.Utf8String (str "t"), .Number (f64OfNat 15), .Null] } ∧
    MessagePayload.to_rtmp_message
      { timestamp := 0, type_id := 17, message_stream_id := 0,
        data := byteOf 0 :: encodeVals [.Utf8String (str "t"), .Number (f64OfNat 15), .Null] } =
      .ok (.Amf0Command (str "t") (f64OfNat 15) .Null []) := by
  have hwf1 : lWF [Amf0Value.Number (f64OfNat 23)] = true := by
    simp [lWF, vWF]
  have hwf2 : lWF [Amf0Value.Utf8String (str "t"), .Number (f64OfNat 15), .Null] = true := by
    simp [lWF, vWF, str]
  have h1 : MessagePayload.from_rtmp_message (.Amf0Data [.Number (f64OfNat 23)]) 0 0 =
      .ok { timestamp := 0, type_id := 18, message_stream_id := 0,
            data := encodeVals [.Number (f64OfNat 23)] } := by
    simp [MessagePayload.from_rtmp_message, RtmpMessage.get_message_type_id,
      amf0_data.serialize, amf0Encode, hwf1, show byteOf 18 = 18 from rfl]
  have h2 : MessagePayload.from_rtmp_message (.Amf0Command (str "t") (f64OfNat 15) .Null []) 0 0 =
      .ok { timestamp := 0, type_id := 20, message_stream_id := 0,
            data := encodeVals [.Utf8String (str "t"), .Number (f64OfNat 15), .Null] } := by
    simp [MessagePayload.from_rtmp_message, RtmpMessage.get_message_type_id,
      amf0_command.serialize, amf0Encode, hwf2, show byteOf 20 = 20 from rfl]
  refine ⟨h1, ?_, h2, ?_⟩
  · exact amf3_quirk_paths.1 [.Number (f64OfNat 23)] 0 0 _ h1
  · exact amf3_quirk_paths.2 (str "t") (f64OfNat 15) .Null [] 0 0 _ h2

/-! The client session state machine. The implementation
(src/rtmp/src/sessions/client/mod.rs and friends) is not part of the
provided sources — only its tests are — so it is modelled from spec
section 4.3, at the message level: the chunk codec that the real
handle_input drives is out of scope for the session claims, so outbound
packets are modelled as (message stream id, RtmpMessage) pairs and inbound
bytes as one already-deserialized message per call. -/

/-- Modelled from the spec: the client session configuration,
`{chunk_size, window_ack_size, peer_bandwidth, flash_version,
playback_buffer_length_ms}`. -/
structure ClientSessionConfig : Type where
  chunk_size : U32
  flash_version : List Byte
  window_ack_size : U32
  peer_bandwidth : U32
  playback_buffer_length_ms : U32
deriving DecidableEq

/-- Modelled from the spec: the client session states. -/
inductive ClientState : Type
  | Disconnected : ClientState
  | Connecting : ClientState
  | Connected : ClientState
  | PlaybackRequested : ClientState
  | Playing : ClientState
  | PublishRequested : ClientState
  | Publishing : ClientState
deriving DecidableEq

/-- Modelled from the spec: the client session error kinds that the session
claims touch. -/
inductive ClientSessionErrorKind : Type
  | CantConnectWhileAlreadyConnected : ClientSessionErrorKind
  | ActionNotAllowedInCurrentState : ClientSessionErrorKind
deriving DecidableEq

/-- Modelled from the spec: the stream metadata record raised by
StreamMetadataReceived, with the well-known property fields the metadata
parser fills. -/
structure StreamMetadata : Type where
  video_width : Option U32
  video_height : Option U32
  video_codec : Option (List Byte)
  video_frame_rate : Option F32
  video_bitrate_kbps : Option U32
  audio_codec : Option (List Byte)
  audio_bitrate_kbps : Option U32
  audio_sample_rate : Option U32
  audio_channels : Option U32
  audio_is_stereo : Option Bool
  encoder : Option (List Byte)

/-- Modelled from the spec: the client session events the session claims
touch. -/
inductive ClientSessionEvent : Type
  | ConnectionRequestAccepted : ClientSessionEvent
  | ConnectionRequestRejected (description : List Byte) : ClientSessionEvent
  | PlaybackRequestAccepted (stream_key : List Byte) : ClientSessionEvent
  | StreamMetadataReceived (metadata : StreamMetadata) : ClientSessionEvent
  | AudioDataReceived (data : List Byte) (timestamp : U32) : ClientSessionEvent
  | VideoDataReceived (data : List Byte) (timestamp : U32) : ClientSessionEvent

/-- Modelled from the spec: one session action result; an outbound packet is
modelled as the message it carries together with its message stream id. -/
inductive ClientSessionResult : Type
  | OutboundMessage (message_stream_id : U32) (message : RtmpMessage) : ClientSessionResult
  | RaisedEvent (event : ClientSessionEvent) : ClientSessionResult
  | UnhandleableMessageReceived : ClientSessionResult

/-- Modelled from the spec: the client session state,
`current_state, connection_transaction_id, create_stream_transaction_id,
active_stream_id, active_stream_key, app_name` plus the non-zero
monotonically increasing transaction-id counter (the flow-control byte
counters play no part in the session claims and are elided). -/
structure ClientSession : Type where
  config : ClientSessionConfig
  current_state : ClientState
  next_transaction_id : Nat
  connection_transaction_id : Option F64
  create_stream_transaction_id : Option F64
  active_stream_id : Option U32
  active_stream_key : Option (List Byte)
  app_name : Option (List Byte)

/-- Modelled from the spec: a freshly constructed client session is
Disconnected with no pending transactions; the first allocated transaction
id is 1 (the counter is non-zero and monotonically increasing). -/
def ClientSession.new (config : ClientSessionConfig) : ClientSession :=
  { config := config, current_state := .Disconnected, next_transaction_id := 1,
    connection_transaction_id := none, create_stream_transaction_id := none,
    active_stream_id := none, active_stream_key := none, app_name := none }

/-- Modelled from the spec: request_connection(app_name) is valid only in
Disconnected: it allocates a transaction id, sends an AMF0 connect command
whose command object carries app, flashVer and objectEncoding 0, and
transitions to Connecting; otherwise it fails with
CantConnectWhileAlreadyConnected. -/
def ClientSession.request_connection (s : ClientSession) (app_name : List Byte) :
    Except ClientSessionErrorKind (ClientSession × List ClientSessionResult) :=
  if s.current_state = .Disconnected then
    .ok ({ s with current_state := .Connecting,
                  connection_transaction_id := some (f64OfNat s.next_transaction_id),
                  next_transaction_id := s.next_transaction_id + 1,
                  app_name := some app_name },
      [.OutboundMessage 0 (.Amf0Command (str "connect") (f64OfNat s.next_transaction_id)
        (.Object [(str "app", .Utf8String app_name),
                  (str "flashVer", .Utf8String s.config.flash_version),
                  (str "objectEncoding", .Number (f64OfNat 0))]) [])])
  else .error .CantConnectWhileAlreadyConnected

/-- Modelled from the spec: request_playback(stream_key) is valid only in
Connected: it allocates a transaction id, records it as the pending
createStream transaction together with the target stream key, sends a
createStream command and transitions to PlaybackRequested. -/
def ClientSession.request_playback (s : ClientSession) (stream_key : List Byte) :
    Except ClientSessionErrorKind (ClientSession × List ClientSessionResult) :=
  if s.current_state = .Connected then
    .ok ({ s with current_state := .PlaybackRequested,
                  create_stream_transaction_id := some (f64OfNat s.next_transaction_id),
                  next_transaction_id := s.next_transaction_id + 1,
                  active_stream_key := some stream_key },
      [.OutboundMessage 0 (.Amf0Command (str "createStream")
        (f64OfNat s.next_transaction_id) .Null [])])
  else .error .ActionNotAllowedInCurrentState

/-- Lookup in an AMF0 property list. -/
def alookup : List (List Byte × Amf0Value) → List Byte → Option Amf0Value
  | [], _ => none
  | (k, v) :: rest, key => if k = key then some v else alookup rest key

/-- Modelled from the spec: the metadata parser of StreamMetadataReceived,
mapping the well-known onMetaData properties onto the metadata fields
(numbers as u32, framerate as f32, stereo as bool, codec and encoder names
as strings). -/
def extractMetadata (props : List (List Byte × Amf0Value)) : StreamMetadata :=
  { video_width :=
      match alookup props (str "width") with
      | some (.Number x) => some (f64AsU32 x)
      | _ => none,
    video_height :=
      match alookup props (str "height") with
      | some (.Number x) => some (f64AsU32 x)
      | _ => none,
    video_codec :=
      match alookup props (str "videocodecid") with
      | some (.Utf8String s) => some s
      | _ => none,
    video_frame_rate :=
      match alookup props (str "framerate") with
      | some (.Number x) => some (f64AsF32 x)
      | _ => none,
    video_bitrate_kbps :=
      match alookup props (str "videodatarate") with
      | some (.Number x) => some (f64AsU32 x)
      | _ => none,
    audio_codec :=
      match alookup props (str "audiocodecid") with
      | some (.Utf8String s) => some s
      | _ => none,
    audio_bitrate_kbps :=
      match alookup props (str "audiodatarate") with
      | some (.Number x) => some (f64AsU32 x)
      | _ => none,
    audio_sample_rate :=
      match alookup props (str "audiosamplerate") with
      | some (.Number x) => some (f64AsU32 x)
      | _ => none,
    audio_channels :=
      match alookup props (str "audiochannels") with
      | some (.Number x) => some (f64AsU32 x)
      | _ => none,
    audio_is_stereo :=
      match alookup props (str "stereo") with
      | some (.BoolData b) => some b
      | _ => none,
    encoder :=
      match alookup props (str "encoder") with
      | some (.Utf8String s) => some s
      | _ => none }

/-- Modelled from the spec: the message-level core of handle_input. A
matching _result to connect raises ConnectionRequestAccepted and sends a
WindowAcknowledgement of the configured size; a matching _result to
createStream records the returned stream id and sends
UserControl.SetBufferLength followed by play on that stream id; a matching
_error raises ConnectionRequestRejected; onStatus with code
NetStream.Play.Start moves PlaybackRequested to Playing; while Playing an
Amf0Data headed by onMetaData raises StreamMetadataReceived and audio or
video data raise the corresponding data events. Everything else is
surfaced as unhandleable. The publishing-side branches play no part in the
session claims and are elided. -/
def ClientSession.handle_message (s : ClientSession) (ts msid : U32) (msg : RtmpMessage) :
    ClientSession × List ClientSessionResult :=
  match msg with
  | .Amf0Command name tx _obj args =>
    if name = str "_result" then
      if s.current_state = .Connecting ∧ s.connection_transaction_id = some tx then
        ({ s with current_state := .Connected, connection_transaction_id := none },
         [.OutboundMessage 0 (.WindowAcknowledgement s.config.window_ack_size),
          .RaisedEvent .ConnectionRequestAccepted])
      else if s.current_state = .PlaybackRequested ∧
          s.create_stream_transaction_id = some tx then
        match args with
        | .Number bits :: _ =>
          let sid := f64AsU32 bits
          let key := s.active_stream_key.getD []
          ({ s with active_stream_id := some sid,
                    create_stream_transaction_id := none,
                    next_transaction_id := s.next_transaction_id + 1 },
           [.OutboundMessage 0 (.UserControl .SetBufferLength (some sid)
              (some s.config.playback_buffer_length_ms) none),
            .OutboundMessage sid (.Amf0Command (str "play")
              (f64OfNat s.next_transaction_id) .Null [.Utf8String key])])
        | _ => (s, [.UnhandleableMessageReceived])
      else (s, [.UnhandleableMessageReceived])
    else if name = str "_error" then
      if s.connection_transaction_id = some tx then
        ({ s with current_state := .Disconnected, connection_transaction_id := none },
         [.RaisedEvent (.ConnectionRequestRejected
           (match args with
            | .Object props :: _ =>
              match alookup props (str "description") with
              | some (.Utf8String d) => d
              | _ => []
            | _ => []))])
      else (s, [.UnhandleableMessageReceived])
    else if name = str "onStatus" then
      match args with
      | .Object props :: _ =>
        match alookup props (str "code") with
        | some (.Utf8String code) =>
          if code = str "NetStream.Play.Start" ∧ s.current_state = .PlaybackRequested then
            ({ s with current_state := .Playing },
             [.RaisedEvent (.PlaybackRequestAccepted (s.active_stream_key.getD []))])
          else (s, [.UnhandleableMessageReceived])
        | _ => (s, [.UnhandleableMessageReceived])
      | _ => (s, [.UnhandleableMessageReceived])
    else (s, [.UnhandleableMessageReceived])
  | .Amf0Data values =>
    if s.current_state = .Playing then
      match values with
      | .Utf8String name :: .Object props :: _ =>
        if name = str "onMetaData" then
          (s, [.RaisedEvent (.StreamMetadataReceived (extractMetadata props))])
        else (s, [.UnhandleableMessageReceived])
      | _ => (s, [.UnhandleableMessageReceived])
    else (s, [.UnhandleableMessageReceived])
  | .AudioData d =>
    if s.current_state = .Playing then (s, [.RaisedEvent (.AudioDataReceived d ts)])
    else (s, [.UnhandleableMessageReceived])
  | .VideoData d =>
    if s.current_state = .Playing then (s, [.RaisedEvent (.VideoDataReceived d ts)])
    else (s, [.UnhandleableMessageReceived])
  | _ => (s, [.UnhandleableMessageReceived])

/-- The connect-success reply the server sends in the tests: a _result on
transaction id 1 carrying NetConnection.Connect.Success. -/
def connectSuccessCommand : RtmpMessage :=
  .Amf0Command (str "_result") (f64OfNat 1)
    (.Object [(str "fmsVer", .Utf8String (str "fms")),
              (str "capabilities", .Number (f64OfNat 31))])
    [.Object [(str "level", .Utf8String (str "status")),
              (str "code", .Utf8String (str "NetConnection.Connect.Success")),
              (str "description", .Utf8String (str "hi")),
              (str "objectEncoding", .Number (f64OfNat 0))]]

/-- C3: client connect scenario. request_connection from the initial
Disconnected state sends exactly one AMF0 connect command on stream 0 with
a non-zero transaction id and a command object carrying app, objectEncoding
0 and flashVer; feeding back a _result carrying
NetConnection.Connect.Success raises exactly one ConnectionRequestAccepted
event and emits exactly one WindowAcknowledgement of the configured size. -/
theorem client_connect_scenario (cfg : ClientSessionConfig) (app : List Byte) :
    ∃ s1 props s2,
      (ClientSession.new cfg).request_connection app =
        .ok (s1, [.OutboundMessage 0
          (.Amf0Command (str "connect") (f64OfNat 1) (.Object props) [])]) ∧
      (f64OfNat 1).val ≠ 0 ∧
      alookup props (str "app") = some (.Utf8String app) ∧
      alookup props (str "objectEncoding") = some (.Number (f64OfNat 0)) ∧
      alookup props (str "flashVer") = some (.Utf8String cfg.flash_version) ∧
      s1.handle_message 0 0 connectSuccessCommand =
        (s2, [.OutboundMessage 0 (.WindowAcknowledgement cfg.window_ack_size),
              .RaisedEvent .ConnectionRequestAccepted]) := by
  refine ⟨_, _, _, rfl, by decide, rfl, ?_, ?_, rfl⟩
  · rfl
  · rfl

/-- C5: request_connection is valid only in Disconnected: in every other
state it fails with CantConnectWhileAlreadyConnected, and from Disconnected
it succeeds and moves the session to Connecting. -/
theorem request_connection_state_guard :
    (∀ (s : ClientSession) (app : List Byte), s.current_state ≠ .Disconnected →
      s.request_connection app = .error .CantConnectWhileAlreadyConnected) ∧
    (∀ (s : ClientSession) (app : List Byte), s.current_state = .Disconnected →
      ∃ s2 res, s.request_connection app = .ok (s2, res) ∧
        s2.current_state = .Connecting) := by
  constructor
  · intro s app h
    simp [ClientSession.request_connection, h]
  · intro s app h
    unfold ClientSession.request_connection
    rw [if_pos h]
    exact ⟨_, _, rfl, rfl⟩

/-- Configuration used by the concrete witnesses, mirroring the defaulted
test configuration. -/
def witnessConfig : ClientSessionConfig :=
  { chunk_size := 128, flash_version := str "WIN 10,1,85,3", window_ack_size := 250000,
    peer_bandwidth := 2500000, playback_buffer_length_ms := 3000 }

/-- The session reached by a successful connect workflow from a fresh
session. -/
def connectedSessionWitness : ClientSession :=
  match (ClientSession.new witnessConfig).request_connection (str "live") with
  | .ok (s1, _) => (s1.handle_message 0 0 connectSuccessCommand).1
  | .error _ => ClientSession.new witnessConfig

/-- C5 witness: the session after a successful connect is no longer
Disconnected and request_connection on it fails with
CantConnectWhileAlreadyConnected, while a fresh session succeeds and ends
in Connecting. -/
theorem request_connection_state_guard_witness :
    connectedSessionWitness.current_state ≠ .Disconnected ∧
    connectedSessionWitness.request_connection (str "live") =
      .error .CantConnectWhileAlreadyConnected ∧
    (ClientSession.new witnessConfig).current_state = .Disconnected ∧
    (∃ s2 res, (ClientSession.new witnessConfig).request_connection (str "live") =
      .ok (s2, res) ∧ s2.current_state = .Connecting) :=
  ⟨by decide, request_connection_state_guard.1 _ _ (by decide), rfl,
    request_connection_state_guard.2 _ _ rfl⟩

/-- C4 (corrected): createStream result handling. In PlaybackRequested with
a pending createStream transaction and a recorded stream key, a _result on
that transaction id records the returned stream id — the first (and only)
element of additional_arguments, the argument after the null command
object, as a number — as the active stream id, and emits, in order,
UserControl.SetBufferLength with that stream id and the configured
playback_buffer_length_ms, then a play command on that message stream id
whose argument is the stream key. -/
theorem create_stream_result_play_flow (s : ClientSession) (t : F64) (key : List Byte)
    (n : U32) (ts msid : U32)
    (h1 : s.current_state = .PlaybackRequested)
    (h2 : s.create_stream_transaction_id = some t)
    (h3 : s.active_stream_key = some key) :
    s.handle_message ts msid (.Amf0Command (str "_result") t .Null [.Number (f64OfU32 n)]) =
      ({ s with active_stream_id := some n,
                create_stream_transaction_id := none,
                next_transaction_id := s.next_transaction_id + 1 },
       [.OutboundMessage 0 (.UserControl .SetBufferLength (some n)
          (some s.config.playback_buffer_length_ms) none),
        .OutboundMessage n (.Amf0Command (str "play")
          (f64OfNat s.next_transaction_id) .Null [.Utf8String key])]) := by
  simp [ClientSession.handle_message, h1, h2, h3, f64AsU32_f64OfU32]

/-- A concrete session in PlaybackRequested with a pending createStream
transaction, as reached after connect and request_playback. -/
def playbackRequestedWitness : ClientSession :=
  { config := witnessConfig, current_state := .PlaybackRequested, next_transaction_id := 3,
    connection_transaction_id := none, create_stream_transaction_id := some (f64OfNat 2),
    active_stream_id := none, active_stream_key := some (str "key"),
    app_name := some (str "live") }

/-- C4 counterexample: the claim reads the stream id from "the second
additional argument", but the _result reply to createStream carries exactly
one additional argument (the null command object is not part of
additional_arguments, as in get_create_stream_success_response of the
tests), and the session records the stream id from that first element:
with additional_arguments = [Number 7] there is no second element, yet the
session emits SetBufferLength and play for stream id 7 and records it. -/
theorem create_stream_result_argument_position_counterexample :
    (([.Number (f64OfU32 7)] : List Amf0Value)[1]? = none) ∧
    (playbackRequestedWitness.handle_message 0 0
      (.Amf0Command (str "_result") (f64OfNat 2) .Null
        [.Number (f64OfU32 7)])).1.active_stream_id = some 7 ∧
    (playbackRequestedWitness.handle_message 0 0
      (.Amf0Command (str "_result") (f64OfNat 2) .Null [.Number (f64OfU32 7)])).2 =
      [.OutboundMessage 0 (.UserControl .SetBufferLength (some 7) (some 3000) none),
       .OutboundMessage 7 (.Amf0Command (str "play") (f64OfNat 3) .Null
         [.Utf8String (str "key")])] :=
  ⟨rfl, rfl, rfl⟩

/-- C4 witness: the corrected flow at a concrete session and stream id 9. -/
theorem create_stream_result_play_flow_witness :
    playbackRequestedWitness.current_state = .PlaybackRequested ∧
    playbackRequestedWitness.handle_message 0 0
      (.Amf0Command (str "_result") (f64OfNat 2) .Null [.Number (f64OfU32 9)]) =
      ({ playbackRequestedWitness with
          active_stream_id := some 9,
          create_stream_transaction_id := none,
          next_transaction_id := 4 },
       [.OutboundMessage 0 (.UserControl .SetBufferLength (some 9) (some 3000) none),
        .OutboundMessage 9 (.Amf0Command (str "play") (f64OfNat 3) .Null
          [.Utf8String (str "key")])]) :=
  ⟨rfl, create_stream_result_play_flow playbackRequestedWitness (f64OfNat 2)
    (str "key") 9 0 0 rfl rfl rfl⟩

/-- C7: metadata ingest while playing. A Playing session receiving Amf0Data
headed by the string onMetaData and a properties object raises exactly one
StreamMetadataReceived event whose metadata maps width to video_width,
height to video_height, videocodecid to video_codec, framerate to
video_frame_rate, videodatarate to video_bitrate_kbps, audiocodecid to
audio_codec, audiodatarate to audio_bitrate_kbps, audiosamplerate to
audio_sample_rate, audiochannels to audio_channels, stereo to
audio_is_stereo and encoder to encoder. -/
theorem metadata_ingest_while_playing (s : ClientSession) (ts msid : U32)
    (w hgt vbr abr asr ach fr : U32) (vcodec acodec enc : List Byte) (st : Bool)
    (hp : s.current_state = .Playing) :
    s.handle_message ts msid (.Amf0Data [.Utf8String (str "onMetaData"), .Object
      [(str "width", .Number (f64OfU32 w)),
       (str "height", .Number (f64OfU32 hgt)),
       (str "videocodecid", .Utf8String vcodec),
       (str "framerate", .Number (f64OfU32 fr)),
       (str "videodatarate", .Number (f64OfU32 vbr)),
       (str "audiocodecid", .Utf8String acodec),
       (str "audiodatarate", .Number (f64OfU32 abr)),
       (str "audiosamplerate", .Number (f64OfU32 asr)),
       (str "audiochannels", .Number (f64OfU32 ach)),
       (str "stereo", .BoolData st),
       (str "encoder", .Utf8String enc)]]) =
      (s, [.RaisedEvent (.StreamMetadataReceived
        { video_width := some w, video_height := some hgt, video_codec := some vcodec,
          video_frame_rate := some (f32OfU32 fr), video_bitrate_kbps := some vbr,
          audio_codec := some acodec, audio_bitrate_kbps := some abr,
          audio_sample_rate := some asr, audio_channels := some ach,
          audio_is_stereo := some st, encoder := some enc })]) := by
  simp +decide [ClientSession.handle_message, hp, extractMetadata, alookup,
    f64AsU32_f64OfU32, f64AsF32_f64OfU32]

/-- A concrete session in the Playing state. -/
def playingSessionWitness : ClientSession :=
  { config := witnessConfig, current_state := .Playing, next_transaction_id := 3,
    connection_transaction_id := none, create_stream_transaction_id := none,
    active_stream_id := some 7, active_stream_key := some (str "key"),
    app_name := some (str "live") }

/-- C7 witness: the test's metadata object raises the expected event on a
concrete Playing session. -/
theorem metadata_ingest_while_playing_witness :
    playingSessionWitness.current_state = .Playing ∧
    playingSessionWitness.handle_message 0 7 (.Amf0Data [.Utf8String (str "onMetaData"), .Object
      [(str "width", .Number (f64OfU32 1920)),
       (str "height", .Number (f64OfU32 1080)),
       (str "videocodecid", .Utf8String (str "avc1")),
       (str "framerate", .Number (f64OfU32 30)),
       (str "videodatarate", .Number (f64OfU32 1200)),
       (str "audiocodecid", .Utf8String (str "mp4a")),
       (str "audiodatarate", .Number (f64OfU32 96)),
       (str "audiosamplerate", .Number (f64OfU32 48000)),
       (str "audiochannels", .Number (f64OfU32 2)),
       (str "stereo", .BoolData true),
       (str "encoder", .Utf8String (str "Test Encoder"))]]) =
      (playingSessionWitness, [.RaisedEvent (.StreamMetadataReceived
        { video_width := some 1920, video_height := some 1080,
          video_codec := some (str "avc1"), video_frame_rate := some (f32OfU32 30),
          video_bitrate_kbps := some 1200, audio_codec := some (str "mp4a"),
          audio_bitrate_kbps := some 96, audio_sample_rate := some 48000,
          audio_channels := some 2, audio_is_stereo := some true,
          encoder := some (str "Test Encoder") })]) :=
  ⟨rfl, metadata_ingest_while_playing playingSessionWitness 0 7 1920 1080 1200 96 48000 2 30
    (str "avc1") (str "mp4a") (str "Test Encoder") true rfl⟩
